import Mathlib

/-!
Shallow embedding of `lsst/verify/tasks/commonMetrics.py` from the
`verify` repository: two metric-computation classes, `TimingMetricTask`
and `MemoryMetricTask`, which read raw values already extracted from a
task metadata bag and turn them into measurements.

Python dynamic values that can reach these functions are modelled by
`PyVal` (absent data is `PyVal.none`, numbers are exact rationals,
strings are `String`).  Python exceptions are modelled by the error side
of `Except PyErr`, distinguishing the generic `TypeError` / `ValueError`
from the catchable `MetricComputationError` the callers rely on.
Logging is modelled by returning the list of log records the call emits.
-/

deriving instance DecidableEq for Except

/-- A Python runtime value as it can appear in the metadata dictionaries
passed to `makeMeasurement`: `None`, a number (ints and floats are
modelled as exact rationals), or a string. -/
inductive PyVal where
  | none
  | num (q : ℚ)
  | str (s : String)
  deriving DecidableEq, Repr

/-- The exceptions relevant to `commonMetrics.py`: Python TypeError and
ValueError, and the package exception `MetricComputationError`. -/
inductive PyErr where
  | typeError
  | valueError
  | metricComputationError (msg : String)
  deriving DecidableEq, Repr

/-- The units used by `commonMetrics.py`: `u.second`, `u.byte`,
`u.kibibyte`. -/
inductive MUnit where
  | second
  | byte
  | kibibyte
  deriving DecidableEq, Repr

/-- An astropy quantity as used here: a numeric value with a unit. -/
structure Quantity where
  value : ℚ
  unit : MUnit
  deriving DecidableEq, Repr

/-- A quantity expressed in bytes, when its unit is a memory unit
(1 kibibyte = 1024 bytes). -/
def Quantity.inBytes : Quantity → Option ℚ
  | ⟨v, MUnit.byte⟩ => some v
  | ⟨v, MUnit.kibibyte⟩ => some (1024 * v)
  | ⟨_, MUnit.second⟩ => Option.none

/-- A structured metric name (`lsst.verify.Name` built from a
fully qualified "package.metric" string). -/
structure Name where
  package : String
  metric : String
  deriving DecidableEq, Repr

/-- Split a character list on the dot character (Python
`str.split(".")`, restricted to the lists of characters of strings). -/
def splitDot : List Char → List (List Char)
  | [] => [[]]
  | c :: cs =>
    if c = '.' then [] :: splitDot cs
    else
      match splitDot cs with
      | [] => [[c]]
      | h :: t => (c :: h) :: t

/-- Whether the first character list starts with the second (Python
`s.startswith(p)` on the character lists). -/
def startsWithChars : List Char → List Char → Bool
  | _, [] => true
  | [], _ :: _ => false
  | s :: ss, p :: ps => s == p && startsWithChars ss ps

/-- Python `s.startswith(p)`. -/
def pyStartsWith (s p : String) : Bool :=
  startsWithChars s.toList p.toList

/-- The numeric value of a decimal digit character, when it is one. -/
def digitVal (c : Char) : Option ℕ :=
  if '0' ≤ c ∧ c ≤ '9' then some (c.toNat - '0'.toNat) else Option.none

/-- Accumulate a run of decimal digits into a number; any non-digit
character rejects the whole run. -/
def parseDigits : List Char → ℕ → Option ℕ
  | [], acc => some acc
  | c :: cs, acc =>
    match digitVal c with
    | some d => parseDigits cs (10 * acc + d)
    | Option.none => Option.none

/-- Python `int()` applied to a string: an optional sign followed by at
least one decimal digit; anything else raises a `ValueError`, modelled
as `Option.none`. -/
def pyParseInt (s : String) : Option ℤ :=
  match s.toList with
  | '-' :: c :: cs => (parseDigits (c :: cs) 0).map (fun n => -(n : ℤ))
  | '+' :: c :: cs => (parseDigits (c :: cs) 0).map (fun n => (n : ℤ))
  | c :: cs => (parseDigits (c :: cs) 0).map (fun n => (n : ℤ))
  | [] => Option.none

/-- Modelled from the spec: the name-construction collaborator
`lsst.verify.Name` is part of this repository but not under `src/`.
The spec says metric-name resolution parses the configured `metric`
string into a structured name and that a malformed string fails with a
generic type/format error that is not downgraded.  We model the parse of
a fully qualified metric name as splitting on the dot into exactly one
nonempty package component and one nonempty metric component; anything
else raises a Python `TypeError`. -/
def parseName (s : String) : Except PyErr Name :=
  match splitDot s.toList with
  | [p, m] =>
    if p ≠ [] ∧ m ≠ [] then .ok ⟨String.mk p, String.mk m⟩
    else .error .typeError
  | _ => .error .typeError

/-- `lsst.verify.Measurement` as used by `commonMetrics.py`: a metric
name, a quantity, and the `notes` annotations set on it. -/
structure Measurement where
  metric_name : Name
  quantity : Quantity
  notes : List (String × String)
  deriving DecidableEq, Repr

/-- Log levels; `commonMetrics.py` only logs at informational level. -/
inductive LogLevel where
  | info
  deriving DecidableEq, Repr

/-- The observable outcome of a successful `makeMeasurement` call: the
optional measurement it returns and the log records it emits. -/
structure TaskOutput where
  measurement : Option Measurement
  logs : List (LogLevel × String)
  deriving DecidableEq, Repr

/-- `TimeMethodMetricConfig`: the shared configuration shape, two string
fields `target` and `metric`. -/
structure TimeMethodMetricConfig where
  target : String
  metric : String
  deriving DecidableEq, Repr

/-- `TimingMetricConfig = TimeMethodMetricConfig` (source alias). -/
abbrev TimingMetricConfig := TimeMethodMetricConfig

/-- `MemoryMetricConfig = TimeMethodMetricConfig` (source alias). -/
abbrev MemoryMetricConfig := TimeMethodMetricConfig

/-- Python subtraction `a - b` on metadata values: defined exactly when
both operands are numbers, a `TypeError` otherwise. -/
def pySub : PyVal → PyVal → Except PyErr ℚ
  | .num a, .num b => .ok (a - b)
  | _, _ => .error .typeError

/-- Truncation toward zero, the behaviour of Python `int()` on a
number. -/
def intTrunc (q : ℚ) : ℤ :=
  q.num.tdiv (q.den : ℤ)

/-- Python `int(v)` on a metadata value: a number is truncated toward
zero, a string is parsed as a decimal integer (`ValueError` when it does
not parse), `None` raises a `TypeError`. -/
def pyInt : PyVal → Except PyErr ℤ
  | .num q => .ok (intTrunc q)
  | .str s =>
    match pyParseInt s with
    | some n => .ok n
    | Option.none => .error .valueError
  | .none => .error .typeError

/-- Whether Python `int()` accepts the value. -/
def pyIntAccepts (v : PyVal) : Bool :=
  match pyInt v with
  | .ok _ => true
  | .error _ => false

/-- Whether a `makeMeasurement` result actually carries a measurement. -/
def hasMeasurement : Except PyErr TaskOutput → Bool
  | .ok out => out.measurement.isSome
  | .error _ => false

namespace TimingMetricTask

/-- The `timings` dictionary handed to
`TimingMetricTask.makeMeasurement`: the values found under the two
timing keys (`PyVal.none` when the key was absent). -/
structure TimingsInput where
  StartTime : PyVal
  EndTime : PyVal
  deriving DecidableEq, Repr

/-- The two metadata search keys returned by
`TimingMetricTask.getInputMetadataKeys`. -/
structure InputMetadataKeys where
  StartTime : String
  EndTime : String
  deriving DecidableEq, Repr

/-- `TimingMetricTask.getInputMetadataKeys`: concatenate the configured
target with the fixed suffixes. -/
def getInputMetadataKeys (config : TimingMetricConfig) : InputMetadataKeys :=
  ⟨config.target ++ "StartCpuTime", config.target ++ "EndCpuTime"⟩

/-- `TimingMetricTask.getOutputMetricName`: `Name(config.metric)`. -/
def getOutputMetricName (config : TimingMetricConfig) : Except PyErr Name :=
  parseName config.metric

/-- `TimingMetricTask.makeMeasurement`.  If either timing value is
non-null, attempt the subtraction `EndTime - StartTime`; a `TypeError`
there is converted to `MetricComputationError("Invalid metadata")`,
otherwise build the measurement (whose name construction is outside the
try block, so its errors propagate unchanged) with the estimator
annotation.  If both are null, return no measurement and log at
informational level. -/
def makeMeasurement (config : TimingMetricConfig) (timings : TimingsInput) :
    Except PyErr TaskOutput :=
  if timings.StartTime ≠ PyVal.none ∨ timings.EndTime ≠ PyVal.none then
    match pySub timings.EndTime timings.StartTime with
    | .error _ => .error (.metricComputationError "Invalid metadata")
    | .ok totalTime =>
      match getOutputMetricName config with
      | .error e => .error e
      | .ok name =>
        .ok ⟨some ⟨name, ⟨totalTime, MUnit.second⟩,
          [("estimator", "pipe.base.timeMethod")]⟩, []⟩
  else
    .ok ⟨Option.none, [(LogLevel.info,
      "Nothing to do: no timing information for " ++ config.target
        ++ " found.")]⟩

end TimingMetricTask

namespace MemoryMetricTask

/-- The `memory` dictionary handed to
`MemoryMetricTask.makeMeasurement`: the value found under the end-memory
key (`PyVal.none` when the key was absent). -/
structure MemoryInput where
  EndMemory : PyVal
  deriving DecidableEq, Repr

/-- The metadata search key returned by
`MemoryMetricTask.getInputMetadataKeys`. -/
def getInputMetadataKeys (config : MemoryMetricConfig) : String :=
  config.target ++ "EndMaxResidentSetSize"

/-- `MemoryMetricTask.getOutputMetricName`: `Name(config.metric)`. -/
def getOutputMetricName (config : MemoryMetricConfig) : Except PyErr Name :=
  parseName config.metric

/-- `MemoryMetricTask._addUnits`: represent the raw resident-set-size
value in absolute units depending on `sys.platform`: bytes on darwin,
pages (times the page size) on sunos/solaris, kibibytes otherwise. -/
def _addUnits (platform : String) (pagesize : ℤ) (memory : ℤ) : Quantity :=
  if pyStartsWith platform "darwin" then
    ⟨(memory : ℚ), MUnit.byte⟩
  else if pyStartsWith platform "sunos" || pyStartsWith platform "solaris" then
    ⟨((memory * pagesize : ℤ) : ℚ), MUnit.byte⟩
  else
    ⟨(memory : ℚ), MUnit.kibibyte⟩

/-- `MemoryMetricTask.makeMeasurement`.  If the end-memory value is
non-null, convert it with `int()`; a `ValueError` or `TypeError` there
is converted to `MetricComputationError("Invalid metadata")`, otherwise
build the measurement (name construction outside the try block) with
platform-dependent units and the estimator annotation.  If the value is
null, return no measurement and log at informational level.  The ambient
`sys.platform` and `resource.getpagesize()` are explicit arguments. -/
def makeMeasurement (config : MemoryMetricConfig) (platform : String)
    (pagesize : ℤ) (memory : MemoryInput) : Except PyErr TaskOutput :=
  if memory.EndMemory ≠ PyVal.none then
    match pyInt memory.EndMemory with
    | .error _ => .error (.metricComputationError "Invalid metadata")
    | .ok maxMemory =>
      match getOutputMetricName config with
      | .error e => .error e
      | .ok name =>
        .ok ⟨some ⟨name, _addUnits platform pagesize maxMemory,
          [("estimator", "pipe.base.timeMethod")]⟩, []⟩
  else
    .ok ⟨Option.none, [(LogLevel.info,
      "Nothing to do: no memory information for " ++ config.target
        ++ " found.")]⟩

end MemoryMetricTask

/-! ## Claim theorems -/

/-- C1: For every metadata input in which both timing values (found
under the keys target ++ "StartCpuTime" and target ++ "EndCpuTime") are
present and numeric, `TimingMetricTask.makeMeasurement` returns a
measurement whose quantity is exactly EndTime minus StartTime in
seconds, and whose notes record the estimator identity
"pipe.base.timeMethod". -/
theorem timing_measurement_exact (config : TimingMetricConfig) (nm : Name)
    (s e : ℚ) (hname : parseName config.metric = .ok nm) :
    TimingMetricTask.getInputMetadataKeys config =
      ⟨config.target ++ "StartCpuTime", config.target ++ "EndCpuTime"⟩ ∧
    TimingMetricTask.makeMeasurement config ⟨PyVal.num s, PyVal.num e⟩ =
      .ok ⟨some ⟨nm, ⟨e - s, MUnit.second⟩,
        [("estimator", "pipe.base.timeMethod")]⟩, []⟩ := by
  refine ⟨rfl, ?_⟩
  simp [TimingMetricTask.makeMeasurement, pySub,
    TimingMetricTask.getOutputMetricName, hname]

/-- Witness for C1 at a concrete configuration and timing pair. -/
theorem timing_measurement_exact_witness :
    TimingMetricTask.getInputMetadataKeys
        ⟨"NotARealTask.run", "verify.DummyTime"⟩ =
      ⟨"NotARealTask.runStartCpuTime", "NotARealTask.runEndCpuTime"⟩ ∧
    TimingMetricTask.makeMeasurement ⟨"NotARealTask.run", "verify.DummyTime"⟩
        ⟨PyVal.num 1, PyVal.num 3⟩ =
      .ok ⟨some ⟨⟨"verify", "DummyTime"⟩, ⟨(3 : ℚ) - 1, MUnit.second⟩,
        [("estimator", "pipe.base.timeMethod")]⟩, []⟩ := by
  have h := timing_measurement_exact ⟨"NotARealTask.run", "verify.DummyTime"⟩
    ⟨"verify", "DummyTime"⟩ 1 3 (by decide)
  refine ⟨?_, h.2⟩
  rw [h.1]
  decide

/-- C3: If exactly one of the two timing values is present (non-null)
and the other is absent, `TimingMetricTask.makeMeasurement` raises
`MetricComputationError`, not a generic `TypeError` and not a null
result. -/
theorem timing_partial_presence_error (config : TimingMetricConfig)
    (t : TimingMetricTask.TimingsInput)
    (h : (t.StartTime = PyVal.none ∧ t.EndTime ≠ PyVal.none) ∨
         (t.StartTime ≠ PyVal.none ∧ t.EndTime = PyVal.none)) :
    TimingMetricTask.makeMeasurement config t =
      .error (.metricComputationError "Invalid metadata") := by
  obtain ⟨st, en⟩ := t
  rcases h with ⟨h1, h2⟩ | ⟨h1, h2⟩
  · simp only at h1 h2
    subst h1
    cases en <;> simp_all [TimingMetricTask.makeMeasurement, pySub]
  · simp only at h1 h2
    subst h2
    cases st <;> simp_all [TimingMetricTask.makeMeasurement, pySub]

/-- Witness for C3 at a concrete one-sided input. -/
theorem timing_partial_presence_error_witness :
    TimingMetricTask.makeMeasurement ⟨"NotARealTask.run", "verify.DummyTime"⟩
      ⟨PyVal.none, PyVal.num 5⟩ =
    .error (.metricComputationError "Invalid metadata") :=
  timing_partial_presence_error ⟨"NotARealTask.run", "verify.DummyTime"⟩
    ⟨PyVal.none, PyVal.num 5⟩ (Or.inl ⟨rfl, by decide⟩)

/-- C5: If both timing values are absent, `makeMeasurement` returns no
measurement, raises nothing, and logs a single informational record. -/
theorem timing_both_absent_no_measurement (config : TimingMetricConfig) :
    TimingMetricTask.makeMeasurement config ⟨PyVal.none, PyVal.none⟩ =
      .ok ⟨Option.none, [(LogLevel.info,
        "Nothing to do: no timing information for " ++ config.target
          ++ " found.")]⟩ := rfl

/-- C8: Metric-name resolution is deterministic and identical for the
two task classes: it is the same pure function of the configuration,
namely the structured-name parse of the configured metric string. -/
theorem getOutputMetricName_deterministic (config : TimeMethodMetricConfig) :
    TimingMetricTask.getOutputMetricName config =
      TimingMetricTask.getOutputMetricName config ∧
    MemoryMetricTask.getOutputMetricName config =
      MemoryMetricTask.getOutputMetricName config ∧
    TimingMetricTask.getOutputMetricName config =
      MemoryMetricTask.getOutputMetricName config ∧
    TimingMetricTask.getOutputMetricName config = parseName config.metric :=
  ⟨rfl, rfl, rfl, rfl⟩

/-- C2 counterexample: the claim says partial presence (exactly one of
the timing pair present) is treated the same as absent data, with no
measurement and no error.  At a concrete partially present input the
code instead raises `MetricComputationError`. -/
theorem measurement_iff_values_present_counterexample :
    TimingMetricTask.makeMeasurement ⟨"NotARealTask.run", "verify.DummyTime"⟩
      ⟨PyVal.num 1, PyVal.none⟩ =
    .error (.metricComputationError "Invalid metadata") := rfl

/-- C2 (amended): a measurement is produced if and only if all required
raw values are present and well-typed, for both tasks; but partial
presence of the timing pair is an error (`MetricComputationError`), not
a silent no-measurement result. -/
theorem measurement_iff_values_present (config : TimeMethodMetricConfig)
    (nm : Name) (hname : parseName config.metric = .ok nm)
    (t : TimingMetricTask.TimingsInput) (m : MemoryMetricTask.MemoryInput)
    (platform : String) (pagesize : ℤ) :
    (hasMeasurement (TimingMetricTask.makeMeasurement config t) = true ↔
      (∃ a b, t = ⟨PyVal.num a, PyVal.num b⟩)) ∧
    (hasMeasurement
        (MemoryMetricTask.makeMeasurement config platform pagesize m) = true ↔
      pyIntAccepts m.EndMemory = true) ∧
    (∀ v : PyVal, v ≠ PyVal.none →
      TimingMetricTask.makeMeasurement config ⟨v, PyVal.none⟩ =
        .error (.metricComputationError "Invalid metadata") ∧
      TimingMetricTask.makeMeasurement config ⟨PyVal.none, v⟩ =
        .error (.metricComputationError "Invalid metadata")) := by
  refine ⟨?_, ?_, ?_⟩
  · obtain ⟨st, en⟩ := t
    cases st <;> cases en <;>
      simp [TimingMetricTask.makeMeasurement, pySub, hasMeasurement,
        TimingMetricTask.getOutputMetricName, hname]
  · obtain ⟨em⟩ := m
    cases em with
    | none => simp [MemoryMetricTask.makeMeasurement, hasMeasurement,
        pyIntAccepts, pyInt]
    | num q => simp [MemoryMetricTask.makeMeasurement, hasMeasurement,
        pyIntAccepts, pyInt, MemoryMetricTask.getOutputMetricName, hname]
    | str s =>
      cases hp : pyParseInt s <;>
        simp [MemoryMetricTask.makeMeasurement, hasMeasurement,
          pyIntAccepts, pyInt, hp, MemoryMetricTask.getOutputMetricName, hname]
  · intro v hv
    constructor <;> cases v <;>
      simp_all [TimingMetricTask.makeMeasurement, pySub]

/-- Witness for C2 (amended) at concrete inputs. -/
theorem measurement_iff_values_present_witness :
    hasMeasurement (TimingMetricTask.makeMeasurement
      ⟨"NotARealTask.run", "verify.DummyTime"⟩
      ⟨PyVal.num 1, PyVal.num 3⟩) = true :=
  (measurement_iff_values_present ⟨"NotARealTask.run", "verify.DummyTime"⟩
    ⟨"verify", "DummyTime"⟩ (by decide) ⟨PyVal.num 1, PyVal.num 3⟩
    ⟨PyVal.str "1024"⟩ "linux" 4096).1.mpr ⟨1, 3, rfl⟩

/-- C4: `MemoryMetricTask._addUnits` converts the raw value by platform:
bytes on the darwin branch, value times page size in bytes on the
sunos/solaris branch, kibibytes on the default branch; in particular raw
1024 is 1024 kibibytes (1048576 bytes) on the default branch and 1024
bytes on the bytes branch. -/
theorem addUnits_platform_units (platform : String) (pagesize memory : ℤ) :
    (pyStartsWith platform "darwin" = true →
      MemoryMetricTask._addUnits platform pagesize memory =
        ⟨(memory : ℚ), MUnit.byte⟩) ∧
    (pyStartsWith platform "darwin" = false →
      (pyStartsWith platform "sunos" = true ∨
        pyStartsWith platform "solaris" = true) →
      MemoryMetricTask._addUnits platform pagesize memory =
        ⟨((memory * pagesize : ℤ) : ℚ), MUnit.byte⟩) ∧
    (pyStartsWith platform "darwin" = false →
      pyStartsWith platform "sunos" = false →
      pyStartsWith platform "solaris" = false →
      MemoryMetricTask._addUnits platform pagesize memory =
        ⟨(memory : ℚ), MUnit.kibibyte⟩) ∧
    Quantity.inBytes (MemoryMetricTask._addUnits "linux" pagesize 1024) =
      some 1048576 ∧
    MemoryMetricTask._addUnits "darwin" pagesize 1024 =
      ⟨(1024 : ℚ), MUnit.byte⟩ := by
  refine ⟨?_, ?_, ?_, ?_, ?_⟩
  · intro h
    simp [MemoryMetricTask._addUnits, h]
  · intro h1 h2
    rcases h2 with h2 | h2 <;> simp [MemoryMetricTask._addUnits, h1, h2]
  · intro h1 h2 h3
    simp [MemoryMetricTask._addUnits, h1, h2, h3]
  · have hd : pyStartsWith "linux" "darwin" = false := by decide
    have hs : pyStartsWith "linux" "sunos" = false := by decide
    have hl : pyStartsWith "linux" "solaris" = false := by decide
    simp [MemoryMetricTask._addUnits, hd, hs, hl, Quantity.inBytes]
    norm_num
  · have hd : pyStartsWith "darwin" "darwin" = true := by decide
    simp [MemoryMetricTask._addUnits, hd]

/-- Witness for C4 on the pages branch at a concrete platform string. -/
theorem addUnits_platform_units_witness :
    MemoryMetricTask._addUnits "sunos5" 4096 2 =
      ⟨((2 * 4096 : ℤ) : ℚ), MUnit.byte⟩ :=
  (addUnits_platform_units "sunos5" 4096 2).2.1 (by decide) (Or.inl (by decide))

/-- C6: a present end-memory value that `int()` rejects yields the
catchable `MetricComputationError` (never an uncaught generic
exception); an absent end-memory value yields no measurement and an
informational log record. -/
theorem memory_invalid_or_absent (config : MemoryMetricConfig)
    (platform : String) (pagesize : ℤ) (s : String)
    (h : pyParseInt s = Option.none) :
    MemoryMetricTask.makeMeasurement config platform pagesize
      ⟨PyVal.str s⟩ =
      .error (.metricComputationError "Invalid metadata") ∧
    MemoryMetricTask.makeMeasurement config platform pagesize
      ⟨PyVal.none⟩ =
      .ok ⟨Option.none, [(LogLevel.info,
        "Nothing to do: no memory information for " ++ config.target
          ++ " found.")]⟩ := by
  constructor
  · simp [MemoryMetricTask.makeMeasurement, pyInt, h]
  · rfl

/-- Witness for C6 at a concrete non-numeric string. -/
theorem memory_invalid_or_absent_witness :
    MemoryMetricTask.makeMeasurement
      ⟨"NotARealTask.run", "verify.DummyMemory"⟩ "linux" 4096
      ⟨PyVal.str "NotANumber"⟩ =
    .error (.metricComputationError "Invalid metadata") :=
  (memory_invalid_or_absent ⟨"NotARealTask.run", "verify.DummyMemory"⟩
    "linux" 4096 "NotANumber" (by decide)).1

/-- C7: a configured metric string that fails structured-name parsing
makes `getOutputMetricName` fail with the generic `TypeError`, and both
`makeMeasurement` variants propagate that error unchanged (it is never
converted into `MetricComputationError`, which is a distinct error). -/
theorem misconfigured_metric_error_propagates (config : TimeMethodMetricConfig)
    (s e q : ℚ) (platform : String) (pagesize : ℤ)
    (h : parseName config.metric = .error PyErr.typeError) :
    TimingMetricTask.getOutputMetricName config = .error PyErr.typeError ∧
    MemoryMetricTask.getOutputMetricName config = .error PyErr.typeError ∧
    TimingMetricTask.makeMeasurement config ⟨PyVal.num s, PyVal.num e⟩ =
      .error PyErr.typeError ∧
    MemoryMetricTask.makeMeasurement config platform pagesize
      ⟨PyVal.num q⟩ = .error PyErr.typeError ∧
    (∀ msg, PyErr.typeError ≠ PyErr.metricComputationError msg) := by
  refine ⟨h, h, ?_, ?_, by intro msg hmsg; exact PyErr.noConfusion hmsg⟩
  · simp [TimingMetricTask.makeMeasurement, pySub,
      TimingMetricTask.getOutputMetricName, h]
  · simp [MemoryMetricTask.makeMeasurement, pyInt,
      MemoryMetricTask.getOutputMetricName, h]

/-- Witness for C7 at the malformed metric string used by the tests. -/
theorem misconfigured_metric_error_propagates_witness :
    TimingMetricTask.makeMeasurement
      ⟨"NotARealTask.run", "foo.bar.FooBarTime"⟩
      ⟨PyVal.num 1, PyVal.num 3⟩ = .error PyErr.typeError :=
  (misconfigured_metric_error_propagates
    ⟨"NotARealTask.run", "foo.bar.FooBarTime"⟩ 1 3 1 "linux" 4096
    (by decide)).2.2.1

/-- C9: `TimingMetricTask.makeMeasurement` does not require the end time
to be at least the start time: with both values numeric and
EndTime < StartTime it still returns a measurement, whose duration
quantity is negative. -/
theorem timing_negative_duration (config : TimingMetricConfig) (nm : Name)
    (s e : ℚ) (hname : parseName config.metric = .ok nm) (hlt : e < s) :
    TimingMetricTask.makeMeasurement config ⟨PyVal.num s, PyVal.num e⟩ =
      .ok ⟨some ⟨nm, ⟨e - s, MUnit.second⟩,
        [("estimator", "pipe.base.timeMethod")]⟩, []⟩ ∧
    e - s < 0 := by
  constructor
  · simp [TimingMetricTask.makeMeasurement, pySub,
      TimingMetricTask.getOutputMetricName, hname]
  · linarith

/-- Witness for C9 at start 5 and end 2. -/
theorem timing_negative_duration_witness :
    TimingMetricTask.makeMeasurement ⟨"NotARealTask.run", "verify.DummyTime"⟩
      ⟨PyVal.num 5, PyVal.num 2⟩ =
      .ok ⟨some ⟨⟨"verify", "DummyTime"⟩, ⟨(2 : ℚ) - 5, MUnit.second⟩,
        [("estimator", "pipe.base.timeMethod")]⟩, []⟩ ∧
    (2 : ℚ) - 5 < 0 :=
  timing_negative_duration ⟨"NotARealTask.run", "verify.DummyTime"⟩
    ⟨"verify", "DummyTime"⟩ 5 2 (by decide) (by norm_num)

/-- C10: `MemoryMetricTask.makeMeasurement` accepts anything Python
`int()` accepts: a numeric value is truncated toward zero (floor for
nonnegative values, ceiling for nonpositive ones) before unit
conversion, a string parsing as a decimal integer yields a measurement,
and for a present value the computation error occurs exactly when
`int()` rejects it. -/
theorem memory_int_conversion (config : MemoryMetricConfig) (nm : Name)
    (platform : String) (pagesize : ℤ) (q : ℚ) (s : String) (n : ℤ)
    (hname : parseName config.metric = .ok nm)
    (hs : pyParseInt s = some n) :
    MemoryMetricTask.makeMeasurement config platform pagesize
      ⟨PyVal.num q⟩ =
      .ok ⟨some ⟨nm, MemoryMetricTask._addUnits platform pagesize (intTrunc q),
        [("estimator", "pipe.base.timeMethod")]⟩, []⟩ ∧
    MemoryMetricTask.makeMeasurement config platform pagesize
      ⟨PyVal.str s⟩ =
      .ok ⟨some ⟨nm, MemoryMetricTask._addUnits platform pagesize n,
        [("estimator", "pipe.base.timeMethod")]⟩, []⟩ ∧
    (0 ≤ q → intTrunc q = ⌊q⌋) ∧
    (q ≤ 0 → intTrunc q = ⌈q⌉) ∧
    (∀ v : PyVal, v ≠ PyVal.none →
      (MemoryMetricTask.makeMeasurement config platform pagesize ⟨v⟩ =
          .error (.metricComputationError "Invalid metadata") ↔
        pyIntAccepts v = false)) := by
  refine ⟨?_, ?_, ?_, ?_, ?_⟩
  · simp [MemoryMetricTask.makeMeasurement, pyInt,
      MemoryMetricTask.getOutputMetricName, hname]
  · simp [MemoryMetricTask.makeMeasurement, pyInt, hs,
      MemoryMetricTask.getOutputMetricName, hname]
  · intro h
    show q.num.tdiv (q.den : ℤ) = ⌊q⌋
    rw [Rat.floor_def]
    exact Int.tdiv_eq_ediv (Rat.num_nonneg.mpr h) (by omega)
  · intro h
    have hq : 0 ≤ -q.num := by
      have h1 : 0 ≤ (-q).num := Rat.num_nonneg.mpr (by linarith)
      rw [Rat.num_neg_eq_neg_num] at h1
      exact h1
    have h1 : (-q.num).tdiv (q.den : ℤ) = (-q.num) / (q.den : ℤ) :=
      Int.tdiv_eq_ediv hq (by omega)
    have h2 : ⌊-q⌋ = ((-q).num) / ((-q).den : ℤ) := Rat.floor_def
    rw [Rat.num_neg_eq_neg_num, Rat.den_neg_eq_den] at h2
    have h3 : ⌊-q⌋ = -⌈q⌉ := Int.floor_neg
    have h4 : (-q.num).tdiv (q.den : ℤ) = -(q.num.tdiv (q.den : ℤ)) :=
      Int.neg_tdiv _ _
    show q.num.tdiv (q.den : ℤ) = ⌈q⌉
    omega
  · intro v hv
    cases v with
    | none => exact absurd rfl hv
    | num q' => simp [MemoryMetricTask.makeMeasurement, pyInt, pyIntAccepts,
        MemoryMetricTask.getOutputMetricName, hname]
    | str s' =>
      cases hp : pyParseInt s' <;>
        simp [MemoryMetricTask.makeMeasurement, pyInt, pyIntAccepts, hp,
          MemoryMetricTask.getOutputMetricName, hname]

/-- Witness for C10 at the decimal string "1024" on the default
platform branch. -/
theorem memory_int_conversion_witness :
    MemoryMetricTask.makeMeasurement
      ⟨"NotARealTask.run", "verify.DummyMemory"⟩ "linux" 4096
      ⟨PyVal.str "1024"⟩ =
      .ok ⟨some ⟨⟨"verify", "DummyMemory"⟩,
        MemoryMetricTask._addUnits "linux" 4096 1024,
        [("estimator", "pipe.base.timeMethod")]⟩, []⟩ :=
  (memory_int_conversion ⟨"NotARealTask.run", "verify.DummyMemory"⟩
    ⟨"verify", "DummyMemory"⟩ "linux" 4096 0 "1024" 1024
    (by decide) (by decide)).2.1
